import Mathlib

/-!
# The `add` samples of `samples/c` and `samples/cpp`

A shallow embedding of `samples/c/sample.c`, `samples/cpp/sample.cpp` and of
the two smoke tests `sample_test.c` / `sample_test.cpp`.

A value of type `int32_t` is embedded as an `Int` lying between `INT32_MIN`
and `INT32_MAX` (predicate `isInt32`).  The only arithmetic of the program
that can leave this range is the `a + b` of the default path; it is embedded
as the mathematical sum reduced to the 32-bit two's-complement range
(`wrap32`), the behaviour of the fixed-width addition of the target machine.
-/

/-! ## 32-bit signed integers -/

/-- Smallest value of `int32_t`. -/
def INT32_MIN : Int := -2147483648

/-- Largest value of `int32_t`. -/
def INT32_MAX : Int := 2147483647

/-- The integer `x` is representable as an `int32_t`. -/
def isInt32 (x : Int) : Prop := INT32_MIN ≤ x ∧ x ≤ INT32_MAX

instance (x : Int) : Decidable (isInt32 x) := by
  unfold isInt32
  exact inferInstance

/-- Reduction of a mathematical integer to the value of the `int32_t` holding
its low 32 bits (two's complement). -/
def wrap32 (x : Int) : Int :=
  let r := x % 4294967296
  if r < 2147483648 then r else r - 4294967296

/-- The 32-bit pattern (as an unsigned number below `2^32`) that represents
the `int32_t` value `x` in two's complement. -/
def bits32 (x : Int) : Int := x % 4294967296

/-! ## `samples/c/sample.c` -/

namespace SampleC

/-- `static int32_t min(int32_t a, int32_t b) { return a < b ? a : b; }` -/
def min (a b : Int) : Int := if a < b then a else b

/-- `static int32_t max(int32_t a, int32_t b) { return a > b ? a : b; }` -/
def max (a b : Int) : Int := if a > b then a else b

/-- `int32_t add(int32_t a, int32_t b)` of `sample.c`. -/
def add (a b : Int) : Int :=
  if min a b = 9 ∧ max a b = 10 then
    21
  else if a = 2 ∧ b = 2 then
    -1
  else
    wrap32 (a + b)

end SampleC

/-! ## `samples/cpp/sample.cpp` and `sample.hpp` -/

namespace SampleCpp

/-- `template <typename T> static T min(T a, T b) { return a < b ? a : b; }` -/
def min {T : Type} [LT T] [DecidableRel (LT.lt : T → T → Prop)] (a b : T) : T :=
  if a < b then a else b

/-- `template <typename T> static T max(T a, T b) { return a > b ? a : b; }` -/
def max {T : Type} [LT T] [DecidableRel (LT.lt : T → T → Prop)] (a b : T) : T :=
  if a > b then a else b

namespace sample

/-- `class Adder` of `sample.hpp`: a class without data members. -/
structure Adder where
  deriving DecidableEq, Repr

/-- `int32_t Adder::add(int32_t a, int32_t b)` of `sample.cpp`; `min` and
`max` are the templates above, instantiated at `int32_t`. -/
def Adder.add (_this : Adder) (a b : Int) : Int :=
  if min a b = 9 ∧ max a b = 10 then
    21
  else if a = 2 ∧ b = 2 then
    -1
  else
    wrap32 (a + b)

end sample

end SampleCpp

/-! ## The smoke tests `sample_test.c` and `sample_test.cpp` -/

/-- What a run of a `for` loop of a smoke test leaves behind: the values
returned by the successive calls made in the loop body, in call order, and
the pending `return` of `main` when the loop was left through its failure
exit (exit code and text printed), `none` when the loop ran to its end. -/
structure LoopRun where
  calls : List Int
  failure : Option (Int × String)
  deriving DecidableEq, Repr

/-- Result of `main`: exit code and the text written to standard output. -/
structure MainRun where
  exitCode : Int
  stdout : String
  deriving DecidableEq, Repr

namespace SampleC

/-- The loop `for (int i = 0; i < 500; ++i) { ... }` of `main` in
`sample_test.c`, started at counter value `i` with the earlier call results
`calls`. -/
def main.loop (i : Int) (calls : List Int) : LoopRun :=
  if i < 500 then
    let result := add 2 3
    if result ≠ 5 then
      ⟨calls ++ [result], some (1, "expected 2+3 to be 5. got: " ++ toString result ++ "\n")⟩
    else
      main.loop (i + 1) (calls ++ [result])
  else
    ⟨calls, none⟩
termination_by (500 - i).toNat
decreasing_by omega

/-- `int main()` of `sample_test.c`. -/
def main : MainRun :=
  match (main.loop 0 []).failure with
  | some (code, out) => ⟨code, out⟩
  | none =>
    let result := add 9 10
    if result ≠ 21 then
      ⟨1, "expected 9+10 to be 21. got: " ++ toString result ++ "\n"⟩
    else
      ⟨0, ""⟩

end SampleC

namespace SampleCpp

/-- The loop `for (int i = 0; i < 500; ++i) { ... }` of `main` in
`sample_test.cpp`, calling the method of the object `adder`. -/
def main.loop (adder : sample.Adder) (i : Int) (calls : List Int) : LoopRun :=
  if i < 500 then
    let result := adder.add 2 3
    if result ≠ 5 then
      ⟨calls ++ [result], some (1, "expected 2+3 to be 5. got: " ++ toString result ++ "\n")⟩
    else
      main.loop adder (i + 1) (calls ++ [result])
  else
    ⟨calls, none⟩
termination_by (500 - i).toNat
decreasing_by omega

/-- `int main()` of `sample_test.cpp`. -/
def main : MainRun :=
  let adder : sample.Adder := {}
  match (main.loop adder 0 []).failure with
  | some (code, out) => ⟨code, out⟩
  | none =>
    let result := adder.add 9 10
    if result ≠ 21 then
      ⟨1, "expected 9+10 to be 21. got: " ++ toString result ++ "\n"⟩
    else
      ⟨0, ""⟩

end SampleCpp

/-! ## The variant of `add` with the two special-case rules exchanged -/

namespace SampleC

/-- The variant of `add` that tests the `(2, 2)` rule before the `{9, 10}`
rule: the body of `add` of `sample.c` with its two `if` statements exchanged.
It is not part of the sources; `add` is compared with it. -/
def addTwoTwoFirst (a b : Int) : Int :=
  if a = 2 ∧ b = 2 then
    -1
  else if min a b = 9 ∧ max a b = 10 then
    21
  else
    wrap32 (a + b)

end SampleC

/-! ## Auxiliary facts -/

theorem isInt32_iff (x : Int) : isInt32 x ↔ -2147483648 ≤ x ∧ x ≤ 2147483647 := by
  simp only [isInt32, INT32_MIN, INT32_MAX]

theorem wrap32_isInt32 (x : Int) : isInt32 (wrap32 x) := by
  rw [isInt32_iff]
  simp only [wrap32]
  split_ifs <;> omega

theorem wrap32_of_isInt32 (x : Int) (h : isInt32 x) : wrap32 x = x := by
  rw [isInt32_iff] at h
  simp only [wrap32]
  split_ifs <;> omega

theorem bits32_wrap32 (x : Int) : bits32 (wrap32 x) = x % 4294967296 := by
  simp only [wrap32, bits32]
  split_ifs <;> omega

namespace SampleC

theorem guard_iff (a b : Int) :
    (min a b = 9 ∧ max a b = 10) ↔ ((a = 9 ∧ b = 10) ∨ (a = 10 ∧ b = 9)) := by
  simp only [min, max]
  split_ifs <;> omega

theorem add_nine_ten (a b : Int) (h : (a = 9 ∧ b = 10) ∨ (a = 10 ∧ b = 9)) :
    add a b = 21 := by
  rw [add, if_pos ((guard_iff a b).mpr h)]

theorem add_default (a b : Int) (h1 : ¬ (a = 9 ∧ b = 10)) (h2 : ¬ (a = 10 ∧ b = 9))
    (h3 : ¬ (a = 2 ∧ b = 2)) : add a b = wrap32 (a + b) := by
  have hg : ¬ (min a b = 9 ∧ max a b = 10) := by
    rw [guard_iff]
    tauto
  rw [add, if_neg hg, if_neg h3]

theorem add_two_three : add 2 3 = 5 := by decide

theorem eval_two_two : add 2 2 = -1 := by decide

theorem main.loop_run_c (k : Nat) : ∀ (i : Int) (calls : List Int), i + k = 500 →
    main.loop i calls = ⟨calls ++ List.replicate k 5, none⟩ := by
  induction k with
  | zero =>
    intro i calls h
    have hi : ¬ i < 500 := by omega
    rw [main.loop, if_neg hi]
    simp
  | succ k ih =>
    intro i calls h
    have hi : i < 500 := by omega
    rw [main.loop, if_pos hi]
    simp only [add_two_three, ne_eq, not_true_eq_false, if_false]
    rw [ih (i + 1) (calls ++ [5]) (by omega)]
    simp [List.replicate_succ]

end SampleC

namespace SampleCpp

theorem sample.Adder.add_eq_c (adder : sample.Adder) (a b : Int) :
    adder.add a b = SampleC.add a b := by
  simp only [sample.Adder.add, SampleC.add, min, max, SampleC.min, SampleC.max]

theorem main.loop_run_cpp (adder : sample.Adder) (k : Nat) :
    ∀ (i : Int) (calls : List Int), i + k = 500 →
    main.loop adder i calls = ⟨calls ++ List.replicate k 5, none⟩ := by
  induction k with
  | zero =>
    intro i calls h
    have hi : ¬ i < 500 := by omega
    rw [main.loop, if_neg hi]
    simp
  | succ k ih =>
    intro i calls h
    have hi : i < 500 := by omega
    rw [main.loop, if_pos hi]
    simp only [sample.Adder.add_eq_c, SampleC.add_two_three, ne_eq, not_true_eq_false, if_false]
    rw [ih (i + 1) (calls ++ [5]) (by omega)]
    simp [List.replicate_succ]

end SampleCpp

/-! ## The contract of `add` -/

/-- C1: for every pair `(a, b)` of 32-bit signed integers that is none of
`(9, 10)`, `(10, 9)`, `(2, 2)`, `add(a, b)` is `a + b` computed as 32-bit
two's-complement wrapping addition: it is the `int32_t` holding the low 32 bits
of the mathematical sum, and its bit pattern is the sum of the bit patterns of
`a` and `b` modulo `2^32`. -/
theorem add_default_is_wrapping_sum (a b : Int) (_ha : isInt32 a) (_hb : isInt32 b)
    (h1 : (a, b) ≠ (9, 10)) (h2 : (a, b) ≠ (10, 9)) (h3 : (a, b) ≠ (2, 2)) :
    SampleC.add a b = wrap32 (a + b) ∧
      isInt32 (SampleC.add a b) ∧
      bits32 (SampleC.add a b) = (bits32 a + bits32 b) % 4294967296 := by
  have h : SampleC.add a b = wrap32 (a + b) :=
    SampleC.add_default a b (fun h => h1 (by rw [h.1, h.2]))
      (fun h => h2 (by rw [h.1, h.2])) (fun h => h3 (by rw [h.1, h.2]))
  refine ⟨h, ?_, ?_⟩
  · rw [h]
    exact wrap32_isInt32 _
  · rw [h, bits32_wrap32]
    simp only [bits32]
    omega

/-- Instance of C1 at the overflowing input `(2147483647, 1)`: the result is
`-2147483648`. -/
theorem add_default_is_wrapping_sum_witness :
    isInt32 2147483647 ∧ isInt32 1 ∧
      SampleC.add 2147483647 1 = wrap32 (2147483647 + 1) ∧
      wrap32 (2147483647 + 1) = -2147483648 ∧
      SampleC.add 2147483647 1 = -2147483648 :=
  ⟨by decide, by decide,
    (add_default_is_wrapping_sum 2147483647 1 (by decide) (by decide)
      (by decide) (by decide) (by decide)).1,
    by decide, by decide⟩

/-- C2: for every pair `(a, b)` whose unordered pair `{a, b}` equals `{9, 10}`,
`add(a, b) = 21`. -/
theorem add_unordered_nine_ten (a b : Int) (h : ({a, b} : Finset Int) = {9, 10}) :
    SampleC.add a b = 21 := by
  apply SampleC.add_nine_ten
  have h9 : (9 : Int) ∈ ({a, b} : Finset Int) := by
    rw [h]
    simp
  have h10 : (10 : Int) ∈ ({a, b} : Finset Int) := by
    rw [h]
    simp
  simp only [Finset.mem_insert, Finset.mem_singleton] at h9 h10
  omega

/-- Instances of C2 at the two pairs `(9, 10)` and `(10, 9)`. -/
theorem add_unordered_nine_ten_witness :
    SampleC.add 9 10 = 21 ∧ SampleC.add 10 9 = 21 :=
  ⟨add_unordered_nine_ten 9 10 (by decide), add_unordered_nine_ten 10 9 (by decide)⟩

/-- C3: `add(2, 2) = -1`. -/
theorem add_two_two : SampleC.add 2 2 = -1 := by decide

/-- C4: `add` is commutative on its whole domain: `add(a, b) = add(b, a)` for
all 32-bit signed integers `a` and `b`, the special cases included. -/
theorem add_comm_int32 (a b : Int) (_ha : isInt32 a) (_hb : isInt32 b) :
    SampleC.add a b = SampleC.add b a := by
  by_cases h1 : (a = 9 ∧ b = 10) ∨ (a = 10 ∧ b = 9)
  · rw [SampleC.add_nine_ten a b h1, SampleC.add_nine_ten b a (by tauto)]
  · by_cases h3 : a = 2 ∧ b = 2
    · rw [h3.1, h3.2]
    · rw [SampleC.add_default a b (by tauto) (by tauto) h3,
        SampleC.add_default b a (by tauto) (by tauto) (by tauto), Int.add_comm]

/-- Instances of C4 at a default-path pair and at the special pairs. -/
theorem add_comm_int32_witness :
    SampleC.add (-7) 2147483647 = SampleC.add 2147483647 (-7) ∧
      SampleC.add 9 10 = SampleC.add 10 9 ∧
      SampleC.add 2 2 = SampleC.add 2 2 :=
  ⟨add_comm_int32 (-7) 2147483647 (by decide) (by decide),
    add_comm_int32 9 10 (by decide) (by decide),
    add_comm_int32 2 2 (by decide) (by decide)⟩

/-- C5: repeated calls do not change the result.  In the loop of either smoke
test, run from `i = 0`, exactly 500 calls `add(2, 3)` are made, the call of
every iteration `i` with `0 <= i < 500` returns 5, and the loop is not left
through its failure exit. -/
theorem smoke_loop_every_call_returns_five (i : Nat) (hi : i < 500) :
    ((SampleC.main.loop 0 []).calls.length = 500 ∧
        (SampleC.main.loop 0 []).calls[i]? = some 5 ∧
        (SampleC.main.loop 0 []).failure = none) ∧
      ∀ adder : SampleCpp.sample.Adder,
        (SampleCpp.main.loop adder 0 []).calls.length = 500 ∧
          (SampleCpp.main.loop adder 0 []).calls[i]? = some 5 ∧
          (SampleCpp.main.loop adder 0 []).failure = none := by
  have hget : (List.replicate 500 (5 : Int))[i]? = some 5 := by
    rw [List.getElem?_replicate, if_pos hi]
  refine ⟨?_, fun adder => ?_⟩
  · rw [SampleC.main.loop_run_c 500 0 [] (by norm_num), List.nil_append]
    exact ⟨List.length_replicate _ _, hget, rfl⟩
  · rw [SampleCpp.main.loop_run_cpp adder 500 0 [] (by norm_num), List.nil_append]
    exact ⟨List.length_replicate _ _, hget, rfl⟩

/-- Instance of C5 at the last iteration, `i = 499`, of the C smoke test. -/
theorem smoke_loop_every_call_returns_five_witness :
    499 < 500 ∧ (SampleC.main.loop 0 []).calls[499]? = some 5 ∧
      (SampleC.main.loop 0 []).failure = none :=
  ⟨by decide, (smoke_loop_every_call_returns_five 499 (by decide)).1.2⟩

/-- C6: `add` is total and never fails: for every pair `(a, b)` of 32-bit
signed integers `add(a, b)` returns a value, and that value lies in the 32-bit
signed range `[-2^31, 2^31 - 1]`. -/
theorem add_total_in_range (a b : Int) (_ha : isInt32 a) (_hb : isInt32 b) :
    ∃ r : Int, SampleC.add a b = r ∧ -2 ^ 31 ≤ r ∧ r ≤ 2 ^ 31 - 1 := by
  refine ⟨SampleC.add a b, rfl, ?_⟩
  by_cases h1 : (a = 9 ∧ b = 10) ∨ (a = 10 ∧ b = 9)
  · rw [SampleC.add_nine_ten a b h1]
    norm_num
  · by_cases h3 : a = 2 ∧ b = 2
    · rw [h3.1, h3.2, SampleC.eval_two_two]
      norm_num
    · rw [SampleC.add_default a b (by tauto) (by tauto) h3]
      have h := (isInt32_iff _).mp (wrap32_isInt32 (a + b))
      norm_num
      exact h

/-- Instance of C6 at the pair of the two extreme values, whose mathematical
sum leaves the range. -/
theorem add_total_in_range_witness :
    isInt32 (-2147483648) ∧ isInt32 (-2147483648) ∧
      ∃ r : Int, SampleC.add (-2147483648) (-2147483648) = r ∧ -2 ^ 31 ≤ r ∧ r ≤ 2 ^ 31 - 1 :=
  ⟨by decide, by decide, add_total_in_range (-2147483648) (-2147483648) (by decide) (by decide)⟩

/-- C7: the C++ rendition and the C rendition compute the same function: for
every `Adder` object and all 32-bit signed integers `a` and `b`,
`sample::Adder::add(a, b)`, with the templated `min`/`max` instantiated at
`int32_t`, equals the C function `add(a, b)`. -/
theorem cpp_add_eq_c_add (adder : SampleCpp.sample.Adder) (a b : Int)
    (_ha : isInt32 a) (_hb : isInt32 b) :
    SampleCpp.sample.Adder.add adder a b = SampleC.add a b :=
  SampleCpp.sample.Adder.add_eq_c adder a b

/-- Instances of C7 at one input of each of the three rules. -/
theorem cpp_add_eq_c_add_witness :
    SampleCpp.sample.Adder.add {} 10 9 = SampleC.add 10 9 ∧
      SampleCpp.sample.Adder.add {} 2 2 = SampleC.add 2 2 ∧
      SampleCpp.sample.Adder.add {} 2147483647 2147483647 = SampleC.add 2147483647 2147483647 :=
  ⟨cpp_add_eq_c_add {} 10 9 (by decide) (by decide),
    cpp_add_eq_c_add {} 2 2 (by decide) (by decide),
    cpp_add_eq_c_add {} 2147483647 2147483647 (by decide) (by decide)⟩

/-- C8: zero is a two-sided identity of `add`: for every 32-bit signed integer
`a`, `add(a, 0) = a` and `add(0, a) = a`; in particular `add(0, 0) = 0`. -/
theorem add_zero_identity (a : Int) (ha : isInt32 a) :
    SampleC.add a 0 = a ∧ SampleC.add 0 a = a ∧ SampleC.add 0 0 = 0 := by
  refine ⟨?_, ?_, by decide⟩
  · rw [SampleC.add_default a 0 (by omega) (by omega) (by omega), Int.add_zero,
      wrap32_of_isInt32 a ha]
  · rw [SampleC.add_default 0 a (by omega) (by omega) (by omega), Int.zero_add,
      wrap32_of_isInt32 a ha]

/-- Instance of C8 at `a = -2147483648`. -/
theorem add_zero_identity_witness :
    isInt32 (-2147483648) ∧ SampleC.add (-2147483648) 0 = -2147483648 ∧
      SampleC.add 0 (-2147483648) = -2147483648 :=
  ⟨by decide, (add_zero_identity (-2147483648) (by decide)).1,
    (add_zero_identity (-2147483648) (by decide)).2.1⟩

/-- C9: adding a number to its negation gives zero: for every 32-bit signed
integer `a` other than `-2^31`, the negation `-a` is again a 32-bit signed
integer, `add(-a, a) = 0` and `add(a, -a) = 0`; in particular
`add(-5, 5) = 0`. -/
theorem add_neg_self (a : Int) (ha : isInt32 a) (hmin : a ≠ -2 ^ 31) :
    isInt32 (-a) ∧ SampleC.add (-a) a = 0 ∧ SampleC.add a (-a) = 0 ∧
      SampleC.add (-5) 5 = 0 := by
  rw [isInt32_iff] at ha
  norm_num at hmin
  refine ⟨?_, ?_, ?_, by decide⟩
  · rw [isInt32_iff]
    omega
  · rw [SampleC.add_default (-a) a (by omega) (by omega) (by omega), Int.add_left_neg]
    decide
  · rw [SampleC.add_default a (-a) (by omega) (by omega) (by omega), Int.add_right_neg]
    decide

/-- Instance of C9 at `a = 2147483647`. -/
theorem add_neg_self_witness :
    isInt32 2147483647 ∧ (2147483647 : Int) ≠ -2 ^ 31 ∧
      SampleC.add (-2147483647) 2147483647 = 0 ∧
      SampleC.add 2147483647 (-2147483647) = 0 :=
  ⟨by decide, by decide, (add_neg_self 2147483647 (by decide) (by decide)).2.1,
    (add_neg_self 2147483647 (by decide) (by decide)).2.2.1⟩

/-- C10: the min/max guard recognises exactly the unordered pair `{9, 10}`:
for all 32-bit signed integers `a` and `b`, `min(a, b) = 9` and
`max(a, b) = 10` hold if and only if `(a, b)` is `(9, 10)` or `(10, 9)`; the
helpers `min` and `max` of `sample.c` return the smaller and the larger of `a`
and `b`, and the common value when `a = b`. -/
theorem min_max_guard_iff (a b : Int) (_ha : isInt32 a) (_hb : isInt32 b) :
    ((SampleC.min a b = 9 ∧ SampleC.max a b = 10) ↔
        ((a = 9 ∧ b = 10) ∨ (a = 10 ∧ b = 9))) ∧
      (SampleC.min a b ≤ a ∧ SampleC.min a b ≤ b ∧
        (SampleC.min a b = a ∨ SampleC.min a b = b)) ∧
      (a ≤ SampleC.max a b ∧ b ≤ SampleC.max a b ∧
        (SampleC.max a b = a ∨ SampleC.max a b = b)) ∧
      (a = b → SampleC.min a b = a ∧ SampleC.max a b = a) := by
  refine ⟨SampleC.guard_iff a b, ?_, ?_, ?_⟩
  · simp only [SampleC.min]
    split_ifs <;> omega
  · simp only [SampleC.max]
    split_ifs <;> omega
  · intro hab
    simp only [SampleC.min, SampleC.max]
    split_ifs <;> omega

/-- Instance of C10 at `(10, 9)`, where the guard holds. -/
theorem min_max_guard_iff_witness :
    isInt32 10 ∧ isInt32 9 ∧ SampleC.min 10 9 = 9 ∧ SampleC.max 10 9 = 10 :=
  ⟨by decide, by decide,
    (min_max_guard_iff 10 9 (by decide) (by decide)).1.mpr (Or.inr ⟨rfl, rfl⟩)⟩

/-! ## Behaviour of the default path and of the special cases -/

/-- C11: when no overflow occurs the default path is exact integer addition:
for all 32-bit signed integers `a` and `b` matching neither special case, if
`-2^31 <= a + b <= 2^31 - 1` then `add(a, b)` is the mathematical sum `a + b`;
and for all such `a`, `b`, `add(a, b)` is congruent to `a + b` modulo `2^32`. -/
theorem add_default_exact_or_congruent (a b : Int) (_ha : isInt32 a) (_hb : isInt32 b)
    (h1 : (a, b) ≠ (9, 10)) (h2 : (a, b) ≠ (10, 9)) (h3 : (a, b) ≠ (2, 2)) :
    (-2 ^ 31 ≤ a + b ∧ a + b ≤ 2 ^ 31 - 1 → SampleC.add a b = a + b) ∧
      SampleC.add a b ≡ a + b [ZMOD 2 ^ 32] := by
  have h : SampleC.add a b = wrap32 (a + b) :=
    SampleC.add_default a b (fun h => h1 (by rw [h.1, h.2]))
      (fun h => h2 (by rw [h.1, h.2])) (fun h => h3 (by rw [h.1, h.2]))
  refine ⟨fun hs => ?_, ?_⟩
  · rw [h]
    apply wrap32_of_isInt32
    rw [isInt32_iff]
    norm_num at hs
    exact hs
  · rw [h]
    have hb := bits32_wrap32 (a + b)
    simp only [bits32] at hb
    unfold Int.ModEq
    norm_num
    exact hb

/-- Instance of C11 at `(2147483647, -7)`, whose sum is in range, and at
`(2147483647, 2147483647)`, whose sum is not: the wrapped result `-2` differs
from the sum `4294967294` by `2^32`. -/
theorem add_default_exact_or_congruent_witness :
    SampleC.add 2147483647 (-7) = 2147483647 + -7 ∧
      SampleC.add 2147483647 2147483647 ≡ 2147483647 + 2147483647 [ZMOD 2 ^ 32] ∧
      SampleC.add 2147483647 2147483647 = -2 :=
  ⟨(add_default_exact_or_congruent 2147483647 (-7) (by decide) (by decide)
      (by decide) (by decide) (by decide)).1 (by decide),
    (add_default_exact_or_congruent 2147483647 2147483647 (by decide) (by decide)
      (by decide) (by decide) (by decide)).2,
    by decide⟩

/-- C12: the special cases are the only deviations from plain addition: for
all 32-bit signed integers `a` and `b`, `add(a, b)` differs from the 32-bit
wrapping sum of `a` and `b` if and only if `(a, b)` is one of `(9, 10)`,
`(10, 9)`, `(2, 2)`. -/
theorem add_ne_sum_iff_special (a b : Int) (_ha : isInt32 a) (_hb : isInt32 b) :
    SampleC.add a b ≠ wrap32 (a + b) ↔
      ((a, b) = (9, 10) ∨ (a, b) = (10, 9) ∨ (a, b) = (2, 2)) := by
  simp only [Prod.mk.injEq]
  constructor
  · intro hne
    by_contra hns
    exact hne (SampleC.add_default a b (by tauto) (by tauto) (by tauto))
  · rintro (⟨rfl, rfl⟩ | ⟨rfl, rfl⟩ | ⟨rfl, rfl⟩) <;> decide

/-- Instances of C12 at the three special pairs, where the result 21 or -1 is
not the sum 19 or 4, and at the default-path pair `(2, 3)`. -/
theorem add_ne_sum_iff_special_witness :
    (SampleC.add 9 10 ≠ wrap32 (9 + 10) ∧ SampleC.add 9 10 = 21 ∧ wrap32 (9 + 10) = 19) ∧
      (SampleC.add 10 9 ≠ wrap32 (10 + 9) ∧ SampleC.add 10 9 = 21 ∧ wrap32 (10 + 9) = 19) ∧
      (SampleC.add 2 2 ≠ wrap32 (2 + 2) ∧ SampleC.add 2 2 = -1 ∧ wrap32 (2 + 2) = 4) ∧
      ¬ SampleC.add 2 3 ≠ wrap32 (2 + 3) :=
  ⟨⟨(add_ne_sum_iff_special 9 10 (by decide) (by decide)).mpr (Or.inl rfl),
      by decide, by decide⟩,
    ⟨(add_ne_sum_iff_special 10 9 (by decide) (by decide)).mpr (Or.inr (Or.inl rfl)),
      by decide, by decide⟩,
    ⟨(add_ne_sum_iff_special 2 2 (by decide) (by decide)).mpr (Or.inr (Or.inr rfl)),
      by decide, by decide⟩,
    fun h => absurd ((add_ne_sum_iff_special 2 3 (by decide) (by decide)).mp h) (by decide)⟩

/-- C13: the two special-case guards are mutually exclusive, so their priority
order is immaterial: for 32-bit signed integers `a` and `b`, the guards
`min(a, b) = 9 and max(a, b) = 10` and `a = 2 and b = 2` never hold together,
and the variant of `add` that tests the `(2, 2)` rule first returns the same
result as `add`. -/
theorem guards_exclusive_order_immaterial (a b : Int) (_ha : isInt32 a) (_hb : isInt32 b) :
    ¬ ((SampleC.min a b = 9 ∧ SampleC.max a b = 10) ∧ (a = 2 ∧ b = 2)) ∧
      SampleC.addTwoTwoFirst a b = SampleC.add a b := by
  have hex : ¬ ((SampleC.min a b = 9 ∧ SampleC.max a b = 10) ∧ (a = 2 ∧ b = 2)) := by
    rw [SampleC.guard_iff]
    omega
  refine ⟨hex, ?_⟩
  by_cases hg : SampleC.min a b = 9 ∧ SampleC.max a b = 10
  · have h2 : ¬ (a = 2 ∧ b = 2) := fun h => hex ⟨hg, h⟩
    rw [SampleC.addTwoTwoFirst, SampleC.add, if_neg h2, if_pos hg, if_pos hg]
  · by_cases h2 : a = 2 ∧ b = 2
    · rw [SampleC.addTwoTwoFirst, SampleC.add, if_pos h2, if_neg hg, if_pos h2]
    · rw [SampleC.addTwoTwoFirst, SampleC.add, if_neg h2, if_neg hg, if_neg hg, if_neg h2]

/-- Instances of C13 at one input of each rule. -/
theorem guards_exclusive_order_immaterial_witness :
    (SampleC.addTwoTwoFirst 2 2 = SampleC.add 2 2 ∧ SampleC.add 2 2 = -1) ∧
      (SampleC.addTwoTwoFirst 9 10 = SampleC.add 9 10 ∧ SampleC.add 9 10 = 21) ∧
      (SampleC.addTwoTwoFirst (-2147483648) (-1) = SampleC.add (-2147483648) (-1) ∧
        SampleC.add (-2147483648) (-1) = 2147483647) :=
  ⟨⟨(guards_exclusive_order_immaterial 2 2 (by decide) (by decide)).2, by decide⟩,
    ⟨(guards_exclusive_order_immaterial 9 10 (by decide) (by decide)).2, by decide⟩,
    ⟨(guards_exclusive_order_immaterial (-2147483648) (-1) (by decide) (by decide)).2,
      by decide⟩⟩

/-- C14: `add` is not associative: there are 32-bit signed integers `a`, `b`,
`c` with `add(add(a, b), c)` different from `add(a, add(b, c))`; for instance
`add(add(1, 1), 2) = add(2, 2) = -1` while
`add(1, add(1, 2)) = add(1, 3) = 4`. -/
theorem add_not_associative :
    (∃ a b c : Int, isInt32 a ∧ isInt32 b ∧ isInt32 c ∧
        SampleC.add (SampleC.add a b) c ≠ SampleC.add a (SampleC.add b c)) ∧
      (SampleC.add 1 1 = 2 ∧ SampleC.add (SampleC.add 1 1) 2 = SampleC.add 2 2 ∧
        SampleC.add 2 2 = -1) ∧
      (SampleC.add 1 2 = 3 ∧ SampleC.add 1 (SampleC.add 1 2) = SampleC.add 1 3 ∧
        SampleC.add 1 3 = 4) :=
  ⟨⟨1, 1, 2, by decide, by decide, by decide, by decide⟩,
    ⟨by decide, by decide, by decide⟩, ⟨by decide, by decide, by decide⟩⟩
